import Mathlib

/-!
Verification of the field-mapping, client, route-registration and startup logic of the
api_paises_y_ciudades service (FastAPI + httpx).

The embedding mirrors the Python sources file by file:
  * A `Json` type stands for the parsed JSON values the upstream providers return and for
    the Python dictionaries the services manipulate.  Python dictionaries are modelled as
    insertion-ordered association lists with first-match lookup (Python dictionaries have
    unique keys, for which first-match lookup coincides with dictionary lookup, and
    `.items()` / `.values()` respect insertion order).
  * Fallible Python expressions (subscripting, `.get` on a non-dictionary, `int(...)`,
    raised HTTPException, failing `from .. import ..`) are modelled with `Except PyErr`.
  * The country field extraction (services/countryservices.py) is written in a small
    state monad `PyM` whose state is the raw provider record, so that the read-only
    property of the extraction is expressible: every primitive corresponds to one
    dictionary access of the source and returns the record state it was given, exactly
    because the Python operations it models (`in`, `[]`, `.get`, `.items`, `.values`)
    do not mutate the dictionary.
  * Pydantic type-validation of the response DTOs is not modelled: DTO fields carry the
    Python values passed to the constructor.  No claim below depends on type coercion.
-/

/-- Parsed JSON values, also standing for the Python objects built from them.
Objects keep the provider insertion order as an association list. -/
inductive Json where
  | null
  | bool (b : Bool)
  | num (n : Int)
  | str (s : String)
  | arr (xs : List Json)
  | obj (kvs : List (String × Json))

/-- Python exceptions that the modelled code can raise. -/
inductive PyErr where
  | keyError (k : String)
  | keyErrorNum (i : Nat)
  | indexError
  | typeError
  | attributeError (attr : String)
  | valueError
  | importError (whichName : String)
  | httpException (status_code : Nat) (detail : String)
deriving DecidableEq, Repr

/-- First-match lookup in an association list; on the unique-key lists that model
Python dictionaries this is exactly dictionary lookup. -/
def jLookup (kvs : List (String × Json)) (k : String) : Option Json :=
  match kvs with
  | [] => none
  | (k1, v) :: rest => if k1 = k then some v else jLookup rest k

/-- Python `d.get(k, default)` on a dictionary value, as a total function on the
underlying association list (callers guard the dictionary case themselves). -/
def jGetD (j : Json) (k : String) (d : Json) : Json :=
  match j with
  | Json.obj kvs => (jLookup kvs k).getD d
  | _ => d

/-- Python truthiness of a JSON value: None, False, 0, the empty string, the empty list
and the empty dictionary are falsy, everything else is truthy. -/
def truthy : Json → Bool
  | Json.null => false
  | Json.bool b => b
  | Json.num n => n != 0
  | Json.str s => s != ""
  | Json.arr xs => !xs.isEmpty
  | Json.obj kvs => !kvs.isEmpty

/-- Whether a JSON value is an object (a Python dictionary). -/
def Json.isObj : Json → Bool
  | Json.obj _ => true
  | _ => false

/-- Python `len(x)`: defined for sized values, TypeError otherwise. -/
def pyLen : Json → Except PyErr Nat
  | Json.str s => Except.ok s.length
  | Json.arr xs => Except.ok xs.length
  | Json.obj kvs => Except.ok kvs.length
  | _ => Except.error PyErr.typeError

/-- Python `xs[i]` on a list: IndexError when out of range. -/
def pyIndexList (xs : List Json) (i : Nat) : Except PyErr Json :=
  match xs.get? i with
  | some x => Except.ok x
  | none => Except.error PyErr.indexError

/-- Python `x[i]` with an integer subscript.  JSON objects only have string keys, so an
integer subscript on a dictionary raises KeyError (this is what
countryservices.py line 96 hits). -/
def pyIndexInt (j : Json) (i : Nat) : Except PyErr Json :=
  match j with
  | Json.arr xs => pyIndexList xs i
  | Json.obj _ => Except.error (PyErr.keyErrorNum i)
  | _ => Except.error PyErr.typeError

/-- Python `x[k]` with a string subscript: KeyError when the key is missing, TypeError
when the value is not a dictionary. -/
def pyGetItemStr (j : Json) (k : String) : Except PyErr Json :=
  match j with
  | Json.obj kvs =>
    match jLookup kvs k with
    | some v => Except.ok v
    | none => Except.error (PyErr.keyError k)
  | _ => Except.error PyErr.typeError

/-- Python `x.get(k, default)`: AttributeError when `x` is not a dictionary. -/
def pyDictGet (j : Json) (k : String) (d : Json) : Except PyErr Json :=
  match j with
  | Json.obj _ => Except.ok (jGetD j k d)
  | _ => Except.error (PyErr.attributeError "get")

/-- Python `x.items()`: AttributeError when `x` is not a dictionary. -/
def pyItems : Json → Except PyErr (List (String × Json))
  | Json.obj kvs => Except.ok kvs
  | _ => Except.error (PyErr.attributeError "items")

/-- Python `list(x.values())`: AttributeError when `x` is not a dictionary. -/
def pyValues : Json → Except PyErr (List Json)
  | Json.obj kvs => Except.ok (kvs.map (fun p => p.2))
  | _ => Except.error (PyErr.attributeError "values")

/-- Python `for .. in x`: a list iterates its elements, a dictionary its keys, a string
its one-character substrings; other values raise TypeError. -/
def pyIterList : Json → Except PyErr (List Json)
  | Json.arr xs => Except.ok xs
  | Json.obj kvs => Except.ok (kvs.map (fun p => Json.str p.1))
  | Json.str s => Except.ok (s.toList.map (fun c => Json.str (String.mk [c])))
  | _ => Except.error PyErr.typeError

/-- Drop whitespace from both ends of a character list. -/
def trimChars (cs : List Char) : List Char :=
  ((cs.dropWhile Char.isWhitespace).reverse.dropWhile Char.isWhitespace).reverse

/-- Python `s.strip()` (whitespace at both ends; only ASCII whitespace is modelled). -/
def pyStrip (s : String) : String := String.mk (trimChars s.data)

/-- Python `s.upper()` (ASCII case mapping is modelled). -/
def pyUpper (s : String) : String := String.mk (s.data.map Char.toUpper)

/-- Accumulate the decimal value of a digit run; none on the first non-digit. -/
def pyDigits (acc : Nat) : List Char → Option Nat
  | [] => some acc
  | c :: rest => if c.isDigit then pyDigits (10 * acc + (c.toNat - 48)) rest else none

/-- A non-empty all-digit run and its value. -/
def pyIntCore (cs : List Char) : Option Nat :=
  match cs with
  | [] => none
  | _ => pyDigits 0 cs

/-- Python `int(s)` as used on the numeric configuration defaults: surrounding
whitespace and a leading sign are accepted, anything else raises ValueError
(digit-group underscores are not modelled; the defaults are plain digit strings). -/
def pyInt (s : String) : Except PyErr Int :=
  match trimChars s.data with
  | '-' :: rest =>
    match pyIntCore rest with
    | some n => Except.ok (-(n : Int))
    | none => Except.error PyErr.valueError
  | '+' :: rest =>
    match pyIntCore rest with
    | some n => Except.ok (n : Int)
    | none => Except.error PyErr.valueError
  | cs =>
    match pyIntCore cs with
    | some n => Except.ok (n : Int)
    | none => Except.error PyErr.valueError

/-- One entry of the currency list built at countryservices.py lines 100 to 105: a plain
dictionary with the mapping key as code and the raw sub-field values. -/
structure CurrencyEntry where
  code : String
  name : Json
  symbol : Json

/-- DTOs/countryDtos.py CountryResponseDTO.  Fields carry the Python values passed to
the constructor (pydantic type validation is not modelled, see the file header). -/
structure CountryResponseDTO where
  name : Json
  official_name : Json
  capital : Json
  population : Json
  region : Json
  subregion : Json
  currencies : List CurrencyEntry
  languages : List Json
  flag : Json
  country_code : Json

/-- DTOs/weatherDtos.py: the class actually defined there is named WeatherResponseDto
(lowercase to), not WeatherResponseDTO. -/
structure WeatherResponseDto where
  city : String
  temperature : Json
  humidity : Json
  description : Json

/-- State monad of the country field extraction: the state is the raw provider record
(the Python dictionary `country_data`), so that leaving it unchanged is provable. -/
def PyM (α : Type) : Type := Json → Except PyErr α × Json

/-- Return a pure value, leaving the record untouched. -/
def PyM.pureM {α : Type} (a : α) : PyM α := fun st => (Except.ok a, st)

/-- Sequencing: a raised exception aborts the rest of the computation. -/
def PyM.bindM {α β : Type} (m : PyM α) (f : α → PyM β) : PyM β := fun st =>
  match m st with
  | (Except.ok a, st1) => f a st1
  | (Except.error e, st1) => (Except.error e, st1)

instance : Monad PyM where
  pure := PyM.pureM
  bind := PyM.bindM

/-- Lift a record-independent computation (an expression that only touches values already
read out of the record) into the state monad. -/
def PyM.lift {α : Type} (e : Except PyErr α) : PyM α := fun st => (e, st)

theorem PyM.bind_eq {α β : Type} (m : PyM α) (f : α → PyM β) :
    m >>= f = PyM.bindM m f := rfl

theorem PyM.pure_eq {α : Type} (a : α) : (pure a : PyM α) = PyM.pureM a := rfl

/-- Python `k in country_data`: one read of the record.  The record is a dictionary in
every call site of the service; an integer or null record would raise TypeError. -/
def mContains (k : String) : PyM Bool := fun st =>
  match st with
  | Json.obj kvs => (Except.ok (jLookup kvs k).isSome, Json.obj kvs)
  | st1 => (Except.error PyErr.typeError, st1)

/-- Python `country_data[k]`: one read of the record. -/
def mGetItemS (k : String) : PyM Json := fun st =>
  match st with
  | Json.obj kvs =>
    match jLookup kvs k with
    | some v => (Except.ok v, Json.obj kvs)
    | none => (Except.error (PyErr.keyError k), Json.obj kvs)
  | st1 => (Except.error PyErr.typeError, st1)

/-- Python `country_data.get(k, default)`: one read of the record. -/
def mGet (k : String) (d : Json) : PyM Json := fun st =>
  match st with
  | Json.obj kvs => (Except.ok ((jLookup kvs k).getD d), Json.obj kvs)
  | st1 => (Except.error (PyErr.attributeError "get"), st1)

/-- Body of the for-loop at countryservices.py lines 100 to 105: one appended entry,
with code taken from the mapping key and name and symbol read with `.get` and an empty
string default. -/
def currencyEntryOf (code : String) (info : Json) : Except PyErr CurrencyEntry := do
  let n ← pyDictGet info "name" (Json.str "")
  let s ← pyDictGet info "symbol" (Json.str "")
  pure { code := code, name := n, symbol := s }

/-- The whole for-loop over `country_data["currencies"].items()`: entries are emitted in
provider order and the first raised exception aborts the loop. -/
def currencyLoop : List (String × Json) → Except PyErr (List CurrencyEntry)
  | [] => Except.ok []
  | (code, info) :: rest => do
    let e ← currencyEntryOf code info
    let es ← currencyLoop rest
    pure (e :: es)

/-- countryservices.py lines 98 to 105: `currencies = []`, rebuilt from the currencies
mapping when the key is present. -/
def currenciesStep : PyM (List CurrencyEntry) := do
  let hasCur ← mContains "currencies"
  if hasCur then
    let cv ← mGetItemS "currencies"
    PyM.lift (do
      let its ← pyItems cv
      currencyLoop its)
  else
    pure []

/-- countryservices.py lines 107 to 109: the language display names are the values of
the languages mapping, provider order preserved, empty when the key is absent. -/
def languagesStep : PyM (List Json) := do
  let hasLang ← mContains "languages"
  if hasLang then
    let lv ← mGetItemS "languages"
    PyM.lift (pyValues lv)
  else
    pure []

/-- countryservices.py lines 110 to 113: capital defaults to the empty string; when the
key is present and its value truthy, a list value contributes its first element and any
other value is used directly (the source re-reads `country_data["capital"]` inside the
conditional expression; the value is the same on every read). -/
def capitalStep : PyM Json := do
  let hasCap ← mContains "capital"
  if hasCap then
    let v0 ← mGetItemS "capital"
    if truthy v0 then
      match v0 with
      | Json.arr xs => PyM.lift (pyIndexList xs 0)
      | v => pure v
    else
      pure (Json.str "")
  else
    pure (Json.str "")

/-- countryservices.py lines 98 to 126: the per-record field extraction, shared verbatim
by get_country (lines 98 to 126), get_country_by_code (lines 145 to 175) and the loop
body of get_countries_by_currency (lines 190 to 222).  The constructor keyword
arguments are evaluated in source order: name, official_name, then the `.get` chains. -/
def mapCountryM : PyM CountryResponseDTO := do
  let currencies ← currenciesStep
  let languages ← languagesStep
  let capital ← capitalStep
  let nameObj ← mGetItemS "name"
  let common ← PyM.lift (pyGetItemStr nameObj "common")
  let official ← PyM.lift (pyGetItemStr nameObj "official")
  let population ← mGet "population" (Json.num 0)
  let region ← mGet "region" (Json.str "")
  let subregion ← mGet "subregion" (Json.str "")
  let flagsVal ← mGet "flags" (Json.obj [])
  let flag ← PyM.lift (pyDictGet flagsVal "png" (Json.str ""))
  let cca2 ← mGet "cca2" (Json.str "")
  pure {
    name := common
    official_name := official
    capital := capital
    population := population
    region := region
    subregion := subregion
    currencies := currencies
    languages := languages
    flag := flag
    country_code := cca2 }

/-- Result of the currencies block (countryservices.py lines 98 to 105) on a record. -/
def extractCurrencies (cd : Json) : Except PyErr (List CurrencyEntry) :=
  (currenciesStep cd).1

/-- Result of the languages block (countryservices.py lines 107 to 109) on a record. -/
def extractLanguages (cd : Json) : Except PyErr (List Json) :=
  (languagesStep cd).1

/-- Result of the capital block (countryservices.py lines 110 to 113) on a record. -/
def extractCapital (cd : Json) : Except PyErr Json :=
  (capitalStep cd).1

/-- The complete field extraction as a function of the record value. -/
def mapCountry (cd : Json) : Except PyErr CountryResponseDTO :=
  (mapCountryM cd).1

/-- One upstream HTTP response as the client sees it: status code and parsed JSON body. -/
structure HttpResponse where
  status_code : Nat
  body : Json

/-- Detail string of the by-name not-found error (countryClient.py lines 105 and 120):
the lookup key is embedded verbatim between the quotes. -/
def notFoundDetailByName (country_name : String) : String :=
  "País \x27" ++ country_name ++ "\x27 no encontrado. Verifica el nombre e intenta de nuevo."

/-- clients/countryClient.py lines 70 to 123, RestCountriesClient.get_country_by_name,
as a function of the upstream response: status 404 raises a 404 HTTPException naming the
key; any other non-200 status propagates the status; a falsy or empty body raises the
same 404; otherwise the FIRST element of the body array is returned (line 123). -/
def get_country_by_name (country_name : String) (resp : HttpResponse) : Except PyErr Json :=
  if resp.status_code = 404 then
    Except.error (PyErr.httpException 404 (notFoundDetailByName country_name))
  else if resp.status_code ≠ 200 then
    Except.error (PyErr.httpException resp.status_code
      "Error al obtener información del país desde REST Countries API")
  else
    let data := resp.body
    if truthy data = false then
      Except.error (PyErr.httpException 404 (notFoundDetailByName country_name))
    else
      match pyLen data with
      | Except.error e => Except.error e
      | Except.ok n =>
        if n = 0 then
          Except.error (PyErr.httpException 404 (notFoundDetailByName country_name))
        else
          pyIndexInt data 0

/-- Detail string of the by-currency not-found error (countryClient.py line 153). -/
def notFoundDetailByCurrency (currency_code : String) : String :=
  "No se encontraron países que usen la moneda \x27" ++ currency_code ++ "\x27"

/-- clients/countryClient.py lines 125 to 161, RestCountriesClient.get_countries_by_currency:
status 404 raises a 404 HTTPException naming the code, any other non-200 status
propagates, and a 200 body is returned unchanged — there is NO empty-body check on this
path (unlike get_country_by_name). -/
def get_countries_by_currency (currency_code : String) (resp : HttpResponse) :
    Except PyErr Json :=
  if resp.status_code = 404 then
    Except.error (PyErr.httpException 404 (notFoundDetailByCurrency currency_code))
  else if resp.status_code ≠ 200 then
    Except.error (PyErr.httpException resp.status_code
      "Error al obtener países por moneda desde REST Countries API")
  else
    Except.ok resp.body

/-- services/countryservices.py lines 76 to 126, CountriesService.get_country: strip the
input, call the client, take `country_data[0]` of the client result (line 96 — the
client has ALREADY returned the first array element, so this subscripts a dictionary
with the integer 0), then run the field extraction. -/
def serviceGetCountry (country_name : String) (resp : HttpResponse) :
    Except PyErr CountryResponseDTO := do
  let name := pyStrip country_name
  let data ← get_country_by_name name resp
  let cd ← pyIndexInt data 0
  mapCountry cd

/-- The per-element mapping loop of get_countries_by_currency (countryservices.py lines
188 to 224): DTOs are appended in order, the first raised exception aborts the loop. -/
def mapCountryList : List Json → Except PyErr (List CountryResponseDTO)
  | [] => Except.ok []
  | cd :: rest => do
    let dto ← mapCountry cd
    let rest2 ← mapCountryList rest
    pure (dto :: rest2)

/-- services/countryservices.py lines 177 to 226, CountriesService.get_countries_by_currency:
strip and uppercase the code, call the client, iterate the returned body and map every
record with the shared field extraction. -/
def serviceGetCountriesByCurrency (currency_code : String) (resp : HttpResponse) :
    Except PyErr (List CountryResponseDTO) := do
  let code := pyUpper (pyStrip currency_code)
  let countriesData ← get_countries_by_currency code resp
  let records ← pyIterList countriesData
  mapCountryList records

/-- The five lookup operations named by the specification. -/
inductive LookupKind where
  | byName
  | byCode
  | byCurrency
  | byLanguage
  | weather
deriving DecidableEq, Repr

/-- One registered FastAPI route: HTTP method, path template, and the lookup operation
its handler delegates to (none for the plain home endpoint). -/
structure Route where
  method : String
  path : String
  delegates : Option LookupKind
deriving DecidableEq, Repr

/-- controllers/countrycontroller.py: the router is created with prefix "/api" (line 31)
and registers exactly one route, GET "/countries/{country}" (lines 33 to 51), whose
handler calls CountriesService.get_country — the by-name lookup.  No other
@router decorator appears in the file. -/
def countriesRouterRoutes : List Route :=
  [{ method := "GET", path := "/countries/{country}", delegates := some LookupKind.byName }]

/-- main.py: the app registers the home endpoint GET "/" (line 82) and includes
countries_router (line 119).  No other router is created or included anywhere in the
repository; in particular no weather, by-code, by-currency or by-language route exists. -/
def appRoutes : List Route :=
  { method := "GET", path := "/", delegates := none } ::
    countriesRouterRoutes.map (fun r => { r with path := "/api" ++ r.path })

/-- The lookup operations that have a registered route. -/
def registeredKinds : List LookupKind :=
  appRoutes.filterMap (fun r => r.delegates)

/-- Environment variables read anywhere in the repository (dotenv plus process
environment); a `none` field is an unset variable. -/
structure Env where
  restcountriesBaseUrl : Option String
  restcountriesTimeout : Option String
  appName : Option String
  appVersion : Option String
  logLevel : Option String
  cacheTtlSeconds : Option String
  openweatherApiKey : Option String

/-- appsettings.py lines 53 to 127: the class attributes evaluated when the module
loads.  The class defines NO OPENWEATHER_API_KEY, GEOCODING_URL, WEATHER_URL, UNITS
or LANGUAGE attribute, and the module defines no lowercase `appsettings` instance. -/
structure AppSettings where
  RESTCOUNTRIES_BASE_URL : String
  TIMEOUT_SECONDS : Int
  DEFAULT_FIELDS : String
  APP_NAME : String
  APP_VERSION : String
  LOG_LEVEL : String
  CACHE_TTL_SECONDS : Int

/-- Importing appsettings.py: every attribute is read with os.getenv and a default; the
two int() conversions (lines 99 and 127) are the only evaluations that can fail, in
source order.  The weather API key is never read. -/
def loadAppSettings (env : Env) : Except PyErr AppSettings := do
  let timeout ← pyInt (env.restcountriesTimeout.getD "10")
  let cacheTtl ← pyInt (env.cacheTtlSeconds.getD "3600")
  pure {
    RESTCOUNTRIES_BASE_URL := env.restcountriesBaseUrl.getD "https://restcountries.com/v3.1"
    TIMEOUT_SECONDS := timeout
    DEFAULT_FIELDS := "name,capital,population,currencies,languages,flags,region,subregion,cca2,cca3"
    APP_NAME := env.appName.getD "Countries API"
    APP_VERSION := env.appVersion.getD "1.0.0"
    LOG_LEVEL := env.logLevel.getD "INFO"
    CACHE_TTL_SECONDS := cacheTtl }

/-- Startup (loading main.py): main pulls in controllers.countrycontroller, which pulls
in services.countryservices, clients.countryClient and appsettings; then the app object
and the routes are created.  services.weatherservices and clients.weatherClient are
never loaded on this path, so nothing here reads OPENWEATHER_API_KEY or fails when it
is unset. -/
def startApp (env : Env) : Except PyErr (List Route) := do
  let _settings ← loadAppSettings env
  pure appRoutes

/-- An environment with every recognized variable unset — in particular, no weather API
key. -/
def envAllUnset : Env :=
  { restcountriesBaseUrl := none
    restcountriesTimeout := none
    appName := none
    appVersion := none
    logLevel := none
    cacheTtlSeconds := none
    openweatherApiKey := none }

/-- Importing services/weatherservices.py fails at line 4: it does
`from DTOs.weatherDtos import WeatherResponseDTO`, but the class defined in
DTOs/weatherDtos.py is named WeatherResponseDto, so the import raises ImportError
(line 5, `from appsettings import appsettings`, would fail the same way: the
appsettings module defines only the class AppSettings). -/
def importWeatherservices : Except PyErr Unit :=
  Except.error (PyErr.importError "WeatherResponseDTO")

/-- Attributes bound on an OpenWeatherClient instance (clients/weatherClient.py lines 6
to 49): the body of `__init__` only DEFINES the local async functions get_coordinates
and get_weather and never assigns them to self, and the class body declares no other
method, so the instance ends up with no attributes at all. -/
def openWeatherClientInstanceAttrs : List String := []

/-- services/weatherservices.py lines 13 to 24, WeatherService.get_weather: after
stripping the city, line 16 evaluates `self.client.get_coordinates(city, http_client)`.
The attribute lookup on the OpenWeatherClient instance fails (see
openWeatherClientInstanceAttrs), so an AttributeError is raised before any geocoding or
weather HTTP call can happen, for every city. -/
def weatherServiceGetWeather (city : String) : Except PyErr WeatherResponseDto :=
  let _city := pyStrip city
  Except.error (PyErr.attributeError "get_coordinates")

/-- The example provider record for Colombia from the specification and from the
docstring of CountriesService.get_country (countryservices.py lines 78 to 90). -/
def colombiaRecord : Json := Json.obj [
  ("name", Json.obj [
    ("common", Json.str "Colombia"),
    ("official", Json.str "Republic of Colombia")]),
  ("capital", Json.arr [Json.str "Bogotá"]),
  ("population", Json.num 50882884),
  ("region", Json.str "Americas"),
  ("subregion", Json.str "South America"),
  ("currencies", Json.obj [
    ("COP", Json.obj [
      ("name", Json.str "Colombian peso"),
      ("symbol", Json.str "$")])]),
  ("languages", Json.obj [("spa", Json.str "Spanish")]),
  ("flags", Json.obj [("png", Json.str "https://flagcdn.com/w320/co.png")]),
  ("cca2", Json.str "CO")]

/-- The Normalized Result Record the specification expects for the Colombia example. -/
def colombiaDto : CountryResponseDTO :=
  { name := Json.str "Colombia"
    official_name := Json.str "Republic of Colombia"
    capital := Json.str "Bogotá"
    population := Json.num 50882884
    region := Json.str "Americas"
    subregion := Json.str "South America"
    currencies := [{ code := "COP", name := Json.str "Colombian peso", symbol := Json.str "$" }]
    languages := [Json.str "Spanish"]
    flag := Json.str "https://flagcdn.com/w320/co.png"
    country_code := Json.str "CO" }

/-- A state computation that leaves the raw provider record unchanged. -/
def Preserving {α : Type} (m : PyM α) : Prop := ∀ st, (m st).2 = st

theorem preserving_pure {α : Type} (a : α) : Preserving (pure a : PyM α) := fun _ => rfl

theorem preserving_lift {α : Type} (e : Except PyErr α) : Preserving (PyM.lift e) :=
  fun _ => rfl

theorem preserving_bindM {α β : Type} {m : PyM α} {f : α → PyM β}
    (hm : Preserving m) (hf : ∀ a, Preserving (f a)) : Preserving (PyM.bindM m f) := by
  intro st
  have h2 := hm st
  unfold PyM.bindM
  cases hres : m st with
  | mk r s2 =>
    rw [hres] at h2
    simp only at h2
    cases r with
    | ok a =>
      simp only [h2]
      exact hf a st
    | error e =>
      simp only [h2]

theorem preserving_bind {α β : Type} {m : PyM α} {f : α → PyM β}
    (hm : Preserving m) (hf : ∀ a, Preserving (f a)) : Preserving (m >>= f) := by
  rw [PyM.bind_eq]
  exact preserving_bindM hm hf

theorem preserving_ite {α : Type} (b : Bool) {m1 m2 : PyM α}
    (h1 : Preserving m1) (h2 : Preserving m2) : Preserving (if b then m1 else m2) := by
  cases b
  · simpa using h2
  · simpa using h1

theorem preserving_mContains (k : String) : Preserving (mContains k) := by
  intro st
  cases st <;> rfl

theorem preserving_mGetItemS (k : String) : Preserving (mGetItemS k) := by
  intro st
  cases st with
  | obj kvs => cases hl : jLookup kvs k <;> simp [mGetItemS, hl]
  | null => rfl
  | bool b => rfl
  | num n => rfl
  | str s => rfl
  | arr xs => rfl

theorem preserving_mGet (k : String) (d : Json) : Preserving (mGet k d) := by
  intro st
  cases st <;> rfl

theorem preserving_currenciesStep : Preserving currenciesStep := by
  unfold currenciesStep
  apply preserving_bind (preserving_mContains "currencies")
  intro b
  apply preserving_ite
  · apply preserving_bind (preserving_mGetItemS "currencies")
    intro cv
    exact preserving_lift _
  · exact preserving_pure _

theorem preserving_languagesStep : Preserving languagesStep := by
  unfold languagesStep
  apply preserving_bind (preserving_mContains "languages")
  intro b
  apply preserving_ite
  · apply preserving_bind (preserving_mGetItemS "languages")
    intro lv
    exact preserving_lift _
  · exact preserving_pure _

theorem preserving_capitalStep : Preserving capitalStep := by
  unfold capitalStep
  apply preserving_bind (preserving_mContains "capital")
  intro b
  apply preserving_ite
  · apply preserving_bind (preserving_mGetItemS "capital")
    intro v0
    apply preserving_ite
    · cases v0 <;> exact fun _ => rfl
    · exact preserving_pure _
  · exact preserving_pure _

theorem preserving_mapCountryM : Preserving mapCountryM := by
  unfold mapCountryM
  apply preserving_bind preserving_currenciesStep
  intro currencies
  apply preserving_bind preserving_languagesStep
  intro languages
  apply preserving_bind preserving_capitalStep
  intro capital
  apply preserving_bind (preserving_mGetItemS "name")
  intro nameObj
  apply preserving_bind (preserving_lift _)
  intro common
  apply preserving_bind (preserving_lift _)
  intro official
  apply preserving_bind (preserving_mGet "population" _)
  intro population
  apply preserving_bind (preserving_mGet "region" _)
  intro region
  apply preserving_bind (preserving_mGet "subregion" _)
  intro subregion
  apply preserving_bind (preserving_mGet "flags" _)
  intro flagsVal
  apply preserving_bind (preserving_lift _)
  intro flag
  apply preserving_bind (preserving_mGet "cca2" _)
  intro cca2
  exact preserving_pure _

theorem run_of_preserving {α : Type} {m : PyM α} (h : Preserving m) (st : Json) :
    m st = ((m st).1, st) := by
  have h2 := h st
  cases hres : m st with
  | mk r s2 =>
    rw [hres] at h2
    simp only at h2
    subst h2
    rfl

theorem bindM_fst_of_pres {α β : Type} {m : PyM α} (hp : Preserving m)
    (f : α → PyM β) (st : Json) :
    (PyM.bindM m f st).1 =
      (match (m st).1 with
       | Except.ok a => (f a st).1
       | Except.error e => Except.error e) := by
  unfold PyM.bindM
  rw [run_of_preserving hp st]
  cases (m st).1 <;> rfl

theorem except_ok_bind {α β : Type} (a : α) (f : α → Except PyErr β) :
    (Except.ok a >>= f) = f a := rfl

theorem except_error_bind {α β : Type} (e : PyErr) (f : α → Except PyErr β) :
    ((Except.error e : Except PyErr α) >>= f) = Except.error e := rfl

/-- Evaluation of the currencies block on a record: when the currencies key is absent
the result is the empty list, otherwise the loop runs over the items of its value. -/
theorem extractCurrencies_obj (kvs : List (String × Json)) :
    extractCurrencies (Json.obj kvs) =
      (match jLookup kvs "currencies" with
       | none => Except.ok []
       | some cv => do
           let its ← pyItems cv
           currencyLoop its) := by
  unfold extractCurrencies currenciesStep
  rw [PyM.bind_eq, bindM_fst_of_pres (preserving_mContains "currencies")]
  cases hl : jLookup kvs "currencies" with
  | none => simp [mContains, hl, PyM.pure_eq, PyM.pureM]
  | some cv =>
    simp only [mContains, hl, Option.isSome_some, if_true]
    rw [PyM.bind_eq, bindM_fst_of_pres (preserving_mGetItemS "currencies")]
    simp [mGetItemS, hl, PyM.lift]

/-- Evaluation of the languages block on a record. -/
theorem extractLanguages_obj (kvs : List (String × Json)) :
    extractLanguages (Json.obj kvs) =
      (match jLookup kvs "languages" with
       | none => Except.ok []
       | some lv => pyValues lv) := by
  unfold extractLanguages languagesStep
  rw [PyM.bind_eq, bindM_fst_of_pres (preserving_mContains "languages")]
  cases hl : jLookup kvs "languages" with
  | none => simp [mContains, hl, PyM.pure_eq, PyM.pureM]
  | some lv =>
    simp only [mContains, hl, Option.isSome_some, if_true]
    rw [PyM.bind_eq, bindM_fst_of_pres (preserving_mGetItemS "languages")]
    simp [mGetItemS, hl, PyM.lift]

/-- Evaluation of the capital block on a record. -/
theorem extractCapital_obj (kvs : List (String × Json)) :
    extractCapital (Json.obj kvs) =
      (match jLookup kvs "capital" with
       | none => Except.ok (Json.str "")
       | some v =>
         if truthy v then
           match v with
           | Json.arr xs => pyIndexList xs 0
           | v1 => Except.ok v1
         else
           Except.ok (Json.str "")) := by
  unfold extractCapital capitalStep
  rw [PyM.bind_eq, bindM_fst_of_pres (preserving_mContains "capital")]
  cases hl : jLookup kvs "capital" with
  | none => simp [mContains, hl, PyM.pure_eq, PyM.pureM]
  | some v =>
    simp only [mContains, hl, Option.isSome_some, if_true]
    rw [PyM.bind_eq, bindM_fst_of_pres (preserving_mGetItemS "capital")]
    simp only [mGetItemS, hl]
    cases htr : truthy v with
    | false => simp [htr, PyM.pure_eq, PyM.pureM]
    | true =>
      simp only [htr, if_true]
      cases v <;> simp [PyM.lift, PyM.pure_eq, PyM.pureM]

theorem except_map_ok {α β : Type} (f : α → β) (a : α) :
    (f <$> (Except.ok a : Except PyErr α)) = Except.ok (f a) := rfl

theorem except_map_error {α β : Type} (f : α → β) (e : PyErr) :
    (f <$> (Except.error e : Except PyErr α)) = Except.error e := rfl

theorem mGetItemS_fst (k : String) (st : Json) :
    (mGetItemS k st).1 = pyGetItemStr st k := by
  cases st with
  | obj kvs => cases hl : jLookup kvs k <;> simp [mGetItemS, pyGetItemStr, hl]
  | null => rfl
  | bool b => rfl
  | num n => rfl
  | str s => rfl
  | arr xs => rfl

theorem lift_fst {α : Type} (e : Except PyErr α) (st : Json) :
    (PyM.lift e st).1 = e := rfl

/-- Evaluation of the whole field extraction on a record, at the level of the Except
monad: the three list-valued blocks first, then the required name fields, then the
optional fields with their `.get` defaults (which never fail on a dictionary). -/
theorem mapCountry_obj (kvs : List (String × Json)) :
    mapCountry (Json.obj kvs) = (do
      let currencies ← extractCurrencies (Json.obj kvs)
      let languages ← extractLanguages (Json.obj kvs)
      let capital ← extractCapital (Json.obj kvs)
      let nameObj ← pyGetItemStr (Json.obj kvs) "name"
      let common ← pyGetItemStr nameObj "common"
      let official ← pyGetItemStr nameObj "official"
      let flag ← pyDictGet (jGetD (Json.obj kvs) "flags" (Json.obj [])) "png" (Json.str "")
      pure {
        name := common
        official_name := official
        capital := capital
        population := jGetD (Json.obj kvs) "population" (Json.num 0)
        region := jGetD (Json.obj kvs) "region" (Json.str "")
        subregion := jGetD (Json.obj kvs) "subregion" (Json.str "")
        currencies := currencies
        languages := languages
        flag := flag
        country_code := jGetD (Json.obj kvs) "cca2" (Json.str "") }) := by
  have h1 : (currenciesStep (Json.obj kvs)).1 = extractCurrencies (Json.obj kvs) := rfl
  have h2 : (languagesStep (Json.obj kvs)).1 = extractLanguages (Json.obj kvs) := rfl
  have h3 : (capitalStep (Json.obj kvs)).1 = extractCapital (Json.obj kvs) := rfl
  unfold mapCountry mapCountryM
  rw [PyM.bind_eq, bindM_fst_of_pres preserving_currenciesStep, h1]
  cases hc : extractCurrencies (Json.obj kvs) with
  | error e => rfl
  | ok currencies =>
    simp only [except_ok_bind]
    rw [PyM.bind_eq, bindM_fst_of_pres preserving_languagesStep, h2]
    cases hlg : extractLanguages (Json.obj kvs) with
    | error e => rfl
    | ok languages =>
      simp only [except_ok_bind]
      rw [PyM.bind_eq, bindM_fst_of_pres preserving_capitalStep, h3]
      cases hcap : extractCapital (Json.obj kvs) with
      | error e => rfl
      | ok capital =>
        simp only [except_ok_bind]
        rw [PyM.bind_eq, bindM_fst_of_pres (preserving_mGetItemS "name"), mGetItemS_fst]
        cases hn : pyGetItemStr (Json.obj kvs) "name" with
        | error e => simp [except_error_bind]
        | ok nameObj =>
          simp only [except_ok_bind]
          rw [PyM.bind_eq, bindM_fst_of_pres (preserving_lift _), lift_fst]
          cases hcm : pyGetItemStr nameObj "common" with
          | error e => simp [except_error_bind]
          | ok common =>
            simp only [except_ok_bind]
            rw [PyM.bind_eq, bindM_fst_of_pres (preserving_lift _), lift_fst]
            cases hof : pyGetItemStr nameObj "official" with
            | error e => simp [except_error_bind]
            | ok official =>
              simp only [except_ok_bind]
              cases hfl : pyDictGet (jGetD (Json.obj kvs) "flags" (Json.obj []))
                  "png" (Json.str "") with
              | error e =>
                simp only [jGetD] at hfl
                simp [PyM.bind_eq, PyM.bindM, mGet, PyM.lift, jGetD, hfl,
                  PyM.pure_eq, PyM.pureM, except_map_error]
              | ok flag =>
                simp only [jGetD] at hfl
                simp [PyM.bind_eq, PyM.bindM, mGet, PyM.lift, jGetD, hfl,
                  PyM.pure_eq, PyM.pureM, except_map_ok]

theorem except_pure {α : Type} (a : α) : (pure a : Except PyErr α) = Except.ok a := rfl

/-- On a currency mapping whose entries are all dictionaries, the loop of
countryservices.py lines 100 to 105 succeeds and produces exactly one entry per
mapping entry, in order, with the defaults of the source. -/
theorem currencyLoop_map (l : List (String × Json))
    (h : l.all (fun p => (p.2).isObj) = true) :
    currencyLoop l = Except.ok (l.map (fun p =>
      { code := p.1
        name := jGetD p.2 "name" (Json.str "")
        symbol := jGetD p.2 "symbol" (Json.str "") })) := by
  induction l with
  | nil => rfl
  | cons hd tl ih =>
    obtain ⟨c, info⟩ := hd
    simp only [List.all_cons, Bool.and_eq_true] at h
    obtain ⟨h1, h2⟩ := h
    cases info with
    | obj ikvs =>
      simp [currencyLoop, currencyEntryOf, pyDictGet, except_ok_bind, except_pure,
        ih h2]
    | null => simp [Json.isObj] at h1
    | bool b => simp [Json.isObj] at h1
    | num n => simp [Json.isObj] at h1
    | str s => simp [Json.isObj] at h1
    | arr xs => simp [Json.isObj] at h1

/-- C1.  The by-name pipeline does NOT map the first record once: the client
(countryClient.py line 123) already returns the first element of the provider array,
and the service (countryservices.py line 96) then subscripts that dictionary with the
integer 0 again, raising KeyError 0 — so the colombia request errors instead of
returning the documented record.  The field extraction itself, applied directly to the
example record, does produce exactly the Normalized Result Record the claim lists, which
shows the extra subscript is the one deviation. -/
theorem getCountry_colombia_double_first_raises_keyError :
    serviceGetCountry "colombia" { status_code := 200, body := Json.arr [colombiaRecord] } =
      Except.error (PyErr.keyErrorNum 0) ∧
    mapCountry colombiaRecord = Except.ok colombiaDto :=
  ⟨rfl, rfl⟩

/-- C2, counterexample.  Not every supported lookup kind has a registered route: the
app registers only the home endpoint and GET /api/countries/{country}, so the
by-currency operation (like by-code, by-language and weather) has no route at all. -/
theorem not_all_lookup_kinds_have_routes :
    ¬ ∀ k : LookupKind, k ∈ registeredKinds := by
  intro h
  exact absurd (h LookupKind.byCurrency) (by decide)

/-- C2, amended.  Exactly one lookup operation is bound to a route: the by-name country
lookup, at GET /api/countries/{country}; the complete route table of the app is the
home endpoint plus that single route. -/
theorem only_by_name_route_registered :
    registeredKinds = [LookupKind.byName] ∧
    appRoutes = [
      { method := "GET", path := "/", delegates := none },
      { method := "GET", path := "/api/countries/{country}",
        delegates := some LookupKind.byName }] := by
  constructor <;> rfl

/-- C3.  The weather lookup can never reach the geocoding call: importing the weather
service module already fails (it imports the nonexistent name WeatherResponseDTO), and
even past that, the OpenWeatherClient instance has no get_coordinates attribute (the
functions are defined local to `__init__` and never bound to self), so
WeatherService.get_weather raises AttributeError for every city before any upstream
call — contrary to the claimed geocode-then-conditions behavior. -/
theorem weather_lookup_crashes_before_any_call :
    importWeatherservices = Except.error (PyErr.importError "WeatherResponseDTO") ∧
    "get_coordinates" ∉ openWeatherClientInstanceAttrs ∧
    ∀ city : String, weatherServiceGetWeather city =
      Except.error (PyErr.attributeError "get_coordinates") :=
  ⟨rfl, by decide, fun _ => rfl⟩

/-- C4, counterexample.  With every environment variable unset — in particular with no
weather API key — startup succeeds and the service accepts traffic on its routes, so a
missing key is NOT a fatal startup-time configuration error in this code. -/
theorem startApp_succeeds_without_weather_key :
    envAllUnset.openweatherApiKey = none ∧
    startApp envAllUnset = Except.ok appRoutes :=
  ⟨rfl, rfl⟩

/-- C4, amended.  Startup never reads the weather API key (the startup result is the
same whether or not the key is set, and succeeds with everything unset); no weather
route is registered, and the only module that would check the key at construction time,
services/weatherservices.py, cannot even be imported — so no weather request is ever
forwarded upstream, vacuously. -/
theorem weather_key_never_checked_at_startup :
    (∀ env : Env, startApp env = startApp { env with openweatherApiKey := none }) ∧
    startApp envAllUnset = Except.ok appRoutes ∧
    LookupKind.weather ∉ registeredKinds ∧
    importWeatherservices = Except.error (PyErr.importError "WeatherResponseDTO") := by
  refine ⟨?_, rfl, by decide, rfl⟩
  intro env
  cases env
  rfl

/-- C5.  For every record whose currencies mapping has N entries (each entry a
dictionary, as the data model prescribes), the mapped currency sequence has exactly the
N entries in provider order; the entry from mapping key k carries code k, the name
sub-field or the empty string, and the symbol sub-field or the empty string. -/
theorem currencies_mapping_preserves_entries
    (kvs ckvs : List (String × Json))
    (hcur : jLookup kvs "currencies" = some (Json.obj ckvs))
    (hwf : ckvs.all (fun p => (p.2).isObj) = true) :
    extractCurrencies (Json.obj kvs) =
      Except.ok (ckvs.map (fun p =>
        { code := p.1
          name := jGetD p.2 "name" (Json.str "")
          symbol := jGetD p.2 "symbol" (Json.str "") })) ∧
    (ckvs.map (fun p : String × Json =>
      ({ code := p.1
         name := jGetD p.2 "name" (Json.str "")
         symbol := jGetD p.2 "symbol" (Json.str "") } : CurrencyEntry))).length =
      ckvs.length := by
  constructor
  · rw [extractCurrencies_obj, hcur]
    simp [pyItems, except_ok_bind, currencyLoop_map ckvs hwf]
  · simp

/-- Witness for C5 at the Colombia record: its one-entry COP mapping maps to the
one-entry currency list of the example. -/
theorem currencies_mapping_preserves_entries_witness :
    extractCurrencies colombiaRecord =
      Except.ok [{ code := "COP", name := Json.str "Colombian peso",
                   symbol := Json.str "$" }] := by
  exact (currencies_mapping_preserves_entries
    [("name", Json.obj [("common", Json.str "Colombia"),
        ("official", Json.str "Republic of Colombia")]),
     ("capital", Json.arr [Json.str "Bogotá"]),
     ("population", Json.num 50882884),
     ("region", Json.str "Americas"),
     ("subregion", Json.str "South America"),
     ("currencies", Json.obj [("COP", Json.obj [("name", Json.str "Colombian peso"),
        ("symbol", Json.str "$")])]),
     ("languages", Json.obj [("spa", Json.str "Spanish")]),
     ("flags", Json.obj [("png", Json.str "https://flagcdn.com/w320/co.png")]),
     ("cca2", Json.str "CO")]
    [("COP", Json.obj [("name", Json.str "Colombian peso"), ("symbol", Json.str "$")])]
    rfl rfl).1

/-- C6, counterexample.  A record whose capital is present as the scalar null falsifies
the claim that a present scalar capital is used as-is: the code checks truthiness
(countryservices.py line 112), null is falsy, and the normalized capital becomes the
empty string, not the value itself. -/
theorem capital_scalar_null_maps_to_empty_string :
    extractCapital (Json.obj [("capital", Json.null)]) = Except.ok (Json.str "") ∧
    Json.str "" ≠ Json.null :=
  ⟨rfl, fun h => Json.noConfusion h⟩

/-- C6, amended.  The normalized capital equals: the empty string when capital is
absent or an empty sequence; the first element when it is a non-empty sequence; the
value itself when it is present as a TRUTHY scalar; and the empty string when it is
present as a falsy scalar (null, false, 0 — the empty string case coincides). -/
theorem capital_extraction_cases (kvs : List (String × Json)) :
    (jLookup kvs "capital" = none →
      extractCapital (Json.obj kvs) = Except.ok (Json.str "")) ∧
    (jLookup kvs "capital" = some (Json.arr []) →
      extractCapital (Json.obj kvs) = Except.ok (Json.str "")) ∧
    (∀ x xs, jLookup kvs "capital" = some (Json.arr (x :: xs)) →
      extractCapital (Json.obj kvs) = Except.ok x) ∧
    (∀ v, jLookup kvs "capital" = some v → truthy v = true → (∀ xs, v ≠ Json.arr xs) →
      extractCapital (Json.obj kvs) = Except.ok v) ∧
    (∀ v, jLookup kvs "capital" = some v → truthy v = false →
      extractCapital (Json.obj kvs) = Except.ok (Json.str "")) := by
  refine ⟨?_, ?_, ?_, ?_, ?_⟩
  · intro h
    rw [extractCapital_obj, h]
  · intro h
    rw [extractCapital_obj, h]
    rfl
  · intro x xs h
    rw [extractCapital_obj, h]
    simp [truthy, pyIndexList]
  · intro v h htr hne
    cases v with
    | arr xs => exact absurd rfl (hne xs)
    | null => simp [truthy] at htr
    | bool b =>
      rw [extractCapital_obj, h]
      simp [htr]
    | num n =>
      rw [extractCapital_obj, h]
      simp [htr]
    | str s =>
      rw [extractCapital_obj, h]
      simp [htr]
    | obj l =>
      rw [extractCapital_obj, h]
      simp [htr]
  · intro v h htr
    rw [extractCapital_obj, h]
    simp [htr]

/-- Witness for C6 at a one-element capital sequence. -/
theorem capital_extraction_cases_witness :
    extractCapital (Json.obj [("capital", Json.arr [Json.str "Bogotá"])]) =
      Except.ok (Json.str "Bogotá") :=
  (capital_extraction_cases [("capital", Json.arr [Json.str "Bogotá"])]).2.2.1
    (Json.str "Bogotá") [] rfl

/-- C7.  When the provider answers the by-name lookup with HTTP 404, or with a success
response whose body is the empty array, the client fails with a 404 HTTPException whose
detail embeds the exact lookup key, and no record is returned. -/
theorem by_name_not_found_references_key (country_name : String) (resp : HttpResponse)
    (h : resp.status_code = 404 ∨ (resp.status_code = 200 ∧ resp.body = Json.arr [])) :
    get_country_by_name country_name resp =
      Except.error (PyErr.httpException 404
        ("País \x27" ++ country_name ++
          "\x27 no encontrado. Verifica el nombre e intenta de nuevo.")) := by
  rcases h with h4 | ⟨h200, hbody⟩
  · simp [get_country_by_name, h4, notFoundDetailByName]
  · simp [get_country_by_name, h200, hbody, truthy, notFoundDetailByName]

/-- Witness for C7 at a concrete 404 response. -/
theorem by_name_not_found_references_key_witness :
    get_country_by_name "atlantis" { status_code := 404, body := Json.null } =
      Except.error (PyErr.httpException 404
        ("País \x27" ++ "atlantis" ++
          "\x27 no encontrado. Verifica el nombre e intenta de nuevo.")) :=
  by_name_not_found_references_key "atlantis" _ (Or.inl rfl)

/-- C8, counterexample.  A currency matching zero countries where the provider answers
200 with an empty array yields a SUCCESSFUL empty list from the by-currency service —
not a not-found response — because get_countries_by_currency has no empty-body check. -/
theorem by_currency_empty_200_yields_empty_list :
    serviceGetCountriesByCurrency "xts" { status_code := 200, body := Json.arr [] } =
      Except.ok [] := rfl

/-- C8, amended.  The by-currency lookup yields a not-found response exactly when the
provider itself responds 404 (with the code in the message); a 200 response with an
empty-array body is passed through and produces a successful empty list. -/
theorem by_currency_not_found_only_on_404 (currency_code : String) (resp : HttpResponse) :
    (resp.status_code = 404 →
      get_countries_by_currency currency_code resp =
        Except.error (PyErr.httpException 404
          ("No se encontraron países que usen la moneda \x27" ++ currency_code ++ "\x27"))) ∧
    (resp.status_code = 200 → resp.body = Json.arr [] →
      serviceGetCountriesByCurrency currency_code resp = Except.ok []) := by
  constructor
  · intro h4
    simp [get_countries_by_currency, h4, notFoundDetailByCurrency]
  · intro h200 hbody
    simp [serviceGetCountriesByCurrency, get_countries_by_currency, h200, hbody,
      pyIterList, mapCountryList, except_ok_bind, except_pure]

/-- Witness for C8 at concrete 404 and empty-200 responses. -/
theorem by_currency_not_found_only_on_404_witness :
    get_countries_by_currency "XTS" { status_code := 404, body := Json.null } =
      Except.error (PyErr.httpException 404
        ("No se encontraron países que usen la moneda \x27" ++ "XTS" ++ "\x27")) ∧
    serviceGetCountriesByCurrency "zzz" { status_code := 200, body := Json.arr [] } =
      Except.ok [] :=
  ⟨(by_currency_not_found_only_on_404 "XTS" _).1 rfl,
   (by_currency_not_found_only_on_404 "zzz" _).2 rfl rfl⟩

/-- C9.  The mapping substitutes documented defaults exactly for the optional fields —
population 0, and empty strings for region, subregion, flag URL and country code, each
independently when absent — while a record missing name, name.common or name.official
yields no Normalized Result Record at all (the extraction raises instead). -/
theorem optional_defaults_and_required_names :
    (∀ (kvs : List (String × Json)) (dto : CountryResponseDTO),
      mapCountry (Json.obj kvs) = Except.ok dto →
        (jLookup kvs "population" = none → dto.population = Json.num 0) ∧
        (jLookup kvs "region" = none → dto.region = Json.str "") ∧
        (jLookup kvs "subregion" = none → dto.subregion = Json.str "") ∧
        (jLookup kvs "flags" = none → dto.flag = Json.str "") ∧
        (jLookup kvs "cca2" = none → dto.country_code = Json.str "")) ∧
    (∀ (kvs nkvs : List (String × Json)),
      jLookup kvs "name" = some (Json.obj nkvs) →
      (jLookup nkvs "common" = none ∨ jLookup nkvs "official" = none) →
      ∃ e, mapCountry (Json.obj kvs) = Except.error e) ∧
    (∀ kvs : List (String × Json),
      jLookup kvs "name" = none →
      ∃ e, mapCountry (Json.obj kvs) = Except.error e) := by
  refine ⟨?_, ?_, ?_⟩
  · intro kvs dto h
    rw [mapCountry_obj] at h
    cases hc : extractCurrencies (Json.obj kvs) with
    | error e => rw [hc] at h; simp [except_error_bind] at h
    | ok currencies =>
    rw [hc] at h
    simp only [except_ok_bind] at h
    cases hlg : extractLanguages (Json.obj kvs) with
    | error e => rw [hlg] at h; simp [except_error_bind] at h
    | ok languages =>
    rw [hlg] at h
    simp only [except_ok_bind] at h
    cases hcap : extractCapital (Json.obj kvs) with
    | error e => rw [hcap] at h; simp [except_error_bind] at h
    | ok capital =>
    rw [hcap] at h
    simp only [except_ok_bind] at h
    cases hnm : pyGetItemStr (Json.obj kvs) "name" with
    | error e => rw [hnm] at h; simp [except_error_bind] at h
    | ok nameObj =>
    rw [hnm] at h
    simp only [except_ok_bind] at h
    cases hcm : pyGetItemStr nameObj "common" with
    | error e => rw [hcm] at h; simp [except_error_bind] at h
    | ok common =>
    rw [hcm] at h
    simp only [except_ok_bind] at h
    cases hof : pyGetItemStr nameObj "official" with
    | error e => rw [hof] at h; simp [except_error_bind] at h
    | ok official =>
    rw [hof] at h
    simp only [except_ok_bind] at h
    cases hfl : pyDictGet (jGetD (Json.obj kvs) "flags" (Json.obj [])) "png"
        (Json.str "") with
    | error e => rw [hfl] at h; simp [except_map_error] at h
    | ok fl =>
    rw [hfl] at h
    simp only [except_ok_bind, except_pure, Except.ok.injEq] at h
    subst h
    refine ⟨?_, ?_, ?_, ?_, ?_⟩
    · intro hnone; simp [jGetD, hnone]
    · intro hnone; simp [jGetD, hnone]
    · intro hnone; simp [jGetD, hnone]
    · intro hnone
      simp only [jGetD, hnone, Option.getD_none, pyDictGet, jLookup,
        Except.ok.injEq] at hfl
      simp [hfl.symm]
    · intro hnone; simp [jGetD, hnone]
  · intro kvs nkvs hname hmiss
    rw [mapCountry_obj]
    cases hc : extractCurrencies (Json.obj kvs) with
    | error e => exact ⟨e, by simp [except_error_bind]⟩
    | ok currencies =>
    cases hlg : extractLanguages (Json.obj kvs) with
    | error e => exact ⟨e, by simp [except_ok_bind, except_error_bind]⟩
    | ok languages =>
    cases hcap : extractCapital (Json.obj kvs) with
    | error e => exact ⟨e, by simp [except_ok_bind, except_error_bind]⟩
    | ok capital =>
    have hn : pyGetItemStr (Json.obj kvs) "name" = Except.ok (Json.obj nkvs) := by
      simp [pyGetItemStr, hname]
    rcases hmiss with hcm | hof
    · have h2 : pyGetItemStr (Json.obj nkvs) "common" =
          Except.error (PyErr.keyError "common") := by
        simp [pyGetItemStr, hcm]
      exact ⟨PyErr.keyError "common",
        by simp [hn, h2, except_ok_bind, except_error_bind]⟩
    · cases hcm2 : pyGetItemStr (Json.obj nkvs) "common" with
      | error e =>
        exact ⟨e, by simp [hn, hcm2, except_ok_bind, except_error_bind]⟩
      | ok common =>
        have h3 : pyGetItemStr (Json.obj nkvs) "official" =
            Except.error (PyErr.keyError "official") := by
          simp [pyGetItemStr, hof]
        exact ⟨PyErr.keyError "official",
          by simp [hn, hcm2, h3, except_ok_bind, except_error_bind]⟩
  · intro kvs hname
    rw [mapCountry_obj]
    cases hc : extractCurrencies (Json.obj kvs) with
    | error e => exact ⟨e, by simp [except_error_bind]⟩
    | ok currencies =>
    cases hlg : extractLanguages (Json.obj kvs) with
    | error e => exact ⟨e, by simp [except_ok_bind, except_error_bind]⟩
    | ok languages =>
    cases hcap : extractCapital (Json.obj kvs) with
    | error e => exact ⟨e, by simp [except_ok_bind, except_error_bind]⟩
    | ok capital =>
    have hn : pyGetItemStr (Json.obj kvs) "name" =
        Except.error (PyErr.keyError "name") := by
      simp [pyGetItemStr, hname]
    exact ⟨PyErr.keyError "name", by simp [hn, except_ok_bind, except_error_bind]⟩

/-- Witness for C9: a record with only the name object gets every documented default,
and records missing name.official or missing name entirely produce errors. -/
theorem optional_defaults_and_required_names_witness :
    ({ name := Json.str "X", official_name := Json.str "Y", capital := Json.str "",
       population := Json.num 0, region := Json.str "", subregion := Json.str "",
       currencies := [], languages := [], flag := Json.str "",
       country_code := Json.str "" } : CountryResponseDTO).population = Json.num 0 ∧
    (∃ e, mapCountry (Json.obj [("name", Json.obj [("common", Json.str "X")])]) =
      Except.error e) ∧
    (∃ e, mapCountry (Json.obj []) = Except.error e) :=
  ⟨(optional_defaults_and_required_names.1
      [("name", Json.obj [("common", Json.str "X"), ("official", Json.str "Y")])]
      _ rfl).1 rfl,
   optional_defaults_and_required_names.2.1
      [("name", Json.obj [("common", Json.str "X")])]
      [("common", Json.str "X")] rfl (Or.inr rfl),
   optional_defaults_and_required_names.2.2 [] rfl⟩

/-- C10.  The country field extraction is deterministic — equal records give equal
results — and read-only: running the extraction returns the raw provider record state
exactly as it was, with no key added, removed or modified. -/
theorem mapping_deterministic_and_read_only :
    (∀ r s : Json, r = s → mapCountry r = mapCountry s) ∧
    (∀ r : Json, (mapCountryM r).2 = r) :=
  ⟨fun _ _ h => by rw [h], preserving_mapCountryM⟩

/-- Witness for C10 at the Colombia record. -/
theorem mapping_deterministic_and_read_only_witness :
    mapCountry colombiaRecord = mapCountry colombiaRecord ∧
    (mapCountryM colombiaRecord).2 = colombiaRecord :=
  ⟨mapping_deterministic_and_read_only.1 colombiaRecord colombiaRecord rfl,
   mapping_deterministic_and_read_only.2 colombiaRecord⟩
